import Mathlib

/-!
Shallow embedding of `src/geovision.py`: a single-image road-detection
pipeline (OpenCV edge/line detection, GeoJSON export).

Modelling conventions:
* Python floats are modelled as rationals (`ℚ`).  Every float the program
  manipulates is either a parsed decimal literal, an integer cast via
  `float(..)` (exact for the pixel-sized integers involved), or
  `math.pi / 2` (`math.pi` is itself a fixed rational, the IEEE-754 double
  nearest π, and halving a double is exact), so the `ℚ` model is exact.
* External OpenCV calls (`imread`, `cvtColor`, `Canny`, `HoughLinesP`) are
  fields of an `Env` record of pure oracles; `imread` returning `none`
  models the `None` value OpenCV returns for an unreadable path, and
  `cvtColor` applied to that `None` raises, modelled with `Except`.
* `HoughLinesP` output is modelled as `Option (List (List RawLine))`:
  `none` for "no lines", otherwise the row structure of the returned
  array, whose row `0` the source indexes as `filtered[0]` (the
  `(1, N, 4)` layout the code assumes, with every detected line in row 0).
* The debug sink only prints / displays; we record what would be logged as
  a `List LogMsg` value threaded beside each result.
-/

set_option autoImplicit false

namespace GeoVision

/-- A pixel image as loaded by `cv2.imread` (BGR triples); the model never
inspects pixels, it only passes images to the `Env` oracles. -/
abbrev Image := List (List (Nat × Nat × Nat))

/-- A grayscale image, result of `cv2.cvtColor(..., COLOR_BGR2GRAY)`. -/
abbrev GrayImage := List (List Nat)

/-- A binary edge map, result of `cv2.Canny`. -/
abbrev EdgeMap := List (List Bool)

/-- One raw line from `cv2.HoughLinesP`: the flat `[x1, y1, x2, y2]` row. -/
abbrev RawLine := Int × Int × Int × Int

/-- A line segment as built by `detect_roads`:
`((line[0], line[1]), (line[2], line[3]))`. -/
abbrev Segment := (Int × Int) × (Int × Int)

/-- `line = ((line[0], line[1]), (line[2], line[3]))` from the
`detect_roads` loop body. -/
def rawToSegment (r : RawLine) : Segment :=
  ((r.1, r.2.1), (r.2.2.1, r.2.2.2))

/-- Errors raised inside the OpenCV calls of the detection step. -/
inductive CvError where
  /-- `cv2.cvtColor` raising `cv2.error` on a `None` source image
  (the unguarded result of a failed `cv2.imread`). -/
  | cvtColorNullSrc
  /-- `filtered[0]` on an empty result array (`IndexError`). -/
  | indexError
  deriving DecidableEq, Repr

/-- A `geojson.LineString`: its coordinate list.  The source always builds
it from exactly two points, each coordinate `float(..)` of an integer;
that cast is exact, so coordinates are modelled as rationals. -/
structure LineString where
  coordinates : List (ℚ × ℚ)
  deriving DecidableEq, Repr

/-- A `geojson.GeometryCollection` of line strings (the only geometry kind
the program ever builds). -/
structure GeometryCollection where
  geometries : List LineString
  deriving DecidableEq, Repr

/-- A `geojson.FeatureCollection` over the accumulated collections. -/
structure FeatureCollection where
  features : List GeometryCollection
  deriving DecidableEq, Repr

/-- Values the `Debugger.log` channel is given by the pipeline; we record
the logged value itself rather than Python's `str` rendering of it. -/
inductive LogMsg where
  /-- `self._debug.log("No lines found")` in `detect_roads`. -/
  | noLines
  /-- `self._debug.log(line)` in `GIS.add_lines`. -/
  | segment (s : Segment)
  /-- `self._debug.log(feature_col)` in `GIS.to_json`. -/
  | featureCol (fc : FeatureCollection)
  deriving DecidableEq, Repr

/-- The `Debugger` class: two independent boolean channels, both
defaulting to off (`__init__` sets both to `False`). -/
structure Debugger where
  show_images : Bool := false
  show_log : Bool := false
  deriving DecidableEq, Repr

/-- `Debugger.log`: the message is printed only when `show_log` is set;
we return the list of messages that reach stdout. -/
def Debugger.logIf (dbg : Debugger) (m : LogMsg) : List LogMsg :=
  if dbg.show_log then [m] else []

/-- `math.pi` as Python evaluates it: the IEEE-754 double nearest π,
`884279719003555 / 2^48`. -/
def mathPi : ℚ := 884279719003555 / 281474976710656

/-- The `Detector` class fields set by `Detector.__init__`. -/
structure Detector where
  hough_rho : ℚ := 1
  hough_theta : ℚ := mathPi / 2
  hough_threshold : Nat := 80
  canny_threshold1 : Nat := 200
  canny_threshold2 : Nat := 255
  deriving DecidableEq, Repr

/-- The external OpenCV functions the pipeline calls, as pure oracles.
`imread` returns `none` for a path that cannot be opened or decoded
(`cv2.imread` returns `None` there rather than raising). -/
structure Env where
  imread : String → Option Image
  grayscale : Image → GrayImage
  canny : GrayImage → Nat → Nat → EdgeMap
  hough : EdgeMap → ℚ → ℚ → Nat → Option (List (List RawLine))

/-- `cv2.cvtColor(img, COLOR_BGR2GRAY)`: raises `cv2.error` when handed the
`None` produced by a failed `imread`, otherwise converts. -/
def cvtColor (env : Env) (img : Option Image) : Except CvError GrayImage :=
  match img with
  | none => .error .cvtColorNullSrc
  | some i => .ok (env.grayscale i)

/-- `Detector.detect_roads`, line for line: load, grayscale, Canny, Hough;
`None` from Hough logs "No lines found" and returns `None`; otherwise the
loop over `filtered[0]` builds the endpoint-pair list.  The second
component collects the debug-log output of the call. -/
def Detector.detect_roads (d : Detector) (env : Env) (dbg : Debugger)
    (image_path : String) :
    Except CvError (Option (List Segment) × List LogMsg) := do
  let img := env.imread image_path
  let img_gray ← cvtColor env img
  let canny := env.canny img_gray d.canny_threshold1 d.canny_threshold2
  match env.hough canny d.hough_rho d.hough_theta d.hough_threshold with
  | none => return (none, dbg.logIf .noLines)
  | some filtered =>
    match filtered with
    | [] => .error .indexError
    | row0 :: _ => return (some (row0.map rawToSegment), [])

/-- The two-point `geojson.LineString` built for one segment in
`GIS.add_lines`: raw pixel coordinates cast to floating point (exact on
these integers), no coordinate-system transform. -/
def segLineString (s : Segment) : LineString :=
  ⟨[((s.1.1 : ℚ), (s.1.2 : ℚ)), ((s.2.1 : ℚ), (s.2.2 : ℚ))]⟩

/-- The `GIS` class state: `self._features`, an accumulator of geometry
collections (`__init__` starts it empty). -/
structure GIS where
  features : List GeometryCollection := []
  deriving DecidableEq, Repr

/-- `GIS.add_lines`: one line string per segment (logging each segment),
wrapped in a single `GeometryCollection` appended to the accumulator. -/
def GIS.add_lines (g : GIS) (dbg : Debugger) (lines : List Segment) :
    GIS × List LogMsg :=
  let line_strings := lines.map segLineString
  let logs := (lines.map (fun l => dbg.logIf (.segment l))).flatten
  (⟨g.features ++ [⟨line_strings⟩]⟩, logs)

/-- `GIS.to_json`: wrap the accumulated features in a `FeatureCollection`,
log it, and return it.  (`str(feature_col)` serializes this value; the
serialized text is a function of the returned structure, so the model
keeps the structure.) -/
def GIS.to_json (g : GIS) (dbg : Debugger) :
    FeatureCollection × List LogMsg :=
  let feature_col : FeatureCollection := ⟨g.features⟩
  (feature_col, dbg.logIf (.featureCol feature_col))

/-- Python's `s.startswith(pre)`, computed on the character lists. -/
def beginsWith (s pre : String) : Bool :=
  pre.data.isPrefixOf s.data

/-- Python's `s.endswith(suffix)`, computed on the character lists. -/
def endsWithStr (s suffix : String) : Bool :=
  suffix.data.isSuffixOf s.data

/-- Drop the first `n` characters of a string. -/
def strDrop (s : String) (n : Nat) : String :=
  ⟨s.data.drop n⟩

/-- `os.path.join(a, b)` on a POSIX system, as `save_json` uses it. -/
def path_join (a b : String) : String :=
  if beginsWith b "/" then b
  else if a = "" ∨ endsWithStr a "/" = true then a ++ b
  else a ++ "/" ++ b

/-- A flat model of the file system: path to content.  Content is kept
polymorphic: `String` for byte-level facts, `FeatureCollection` when the
pipeline stores the structure whose serialization it writes. -/
abbrev FileSys (α : Type) := String → Option α

/-- `save_json`: open `<outdir>/geo.json` in mode `"w"` (truncate) and
write the text; the new content is exactly `json`, whatever was there. -/
def save_json {α : Type} (fs : FileSys α) (json : α) (outdir : String) :
    FileSys α :=
  let output_path := path_join outdir "geo.json"
  fun p => if p = output_path then some json else fs p

/-- Value of a digit string. -/
def digitsToNat (cs : List Char) : Nat :=
  cs.foldl (fun n c => 10 * n + (c.toNat - '0'.toNat)) 0

/-- Python's `float(s)` on the plain decimal strings the CLI receives
(optional sign, digits, optional fractional part; no exponent — the model
covers the inputs this development evaluates).  Decimal fractions are kept
exact in `ℚ`; the program only stores these values and tests them for
truthiness, so the exact-rational reading is faithful. -/
def parseFloatQ (s : String) : Option ℚ :=
  let cs := s.data
  let (sgn, cs) : ℚ × List Char :=
    match cs with
    | '-' :: rest => (-1, rest)
    | '+' :: rest => (1, rest)
    | _ => (1, cs)
  let (ipart, rest) := cs.span Char.isDigit
  match rest with
  | [] => if ipart.isEmpty then none else some (sgn * digitsToNat ipart)
  | '.' :: fpart =>
    if fpart.all Char.isDigit && !(ipart.isEmpty && fpart.isEmpty) then
      some (sgn * ((digitsToNat ipart : ℚ) +
        (digitsToNat fpart : ℚ) / (10 ^ fpart.length)))
    else none
  | _ => none

/-- The argparse namespace while options are being scanned; required
options not yet seen are `none`. -/
structure ArgState where
  image : Option String := none
  outdir : Option String := none
  verbosity : Option Nat := none
  rho : Option ℚ := none
  theta : Option ℚ := none
  deriving DecidableEq, Repr

/-- The parsed options once `parse_args` has succeeded: `--image` and
`--outdir` are `required=True`, so they are present. -/
structure Args where
  image : String
  outdir : String
  verbosity : Option Nat := none
  rho : Option ℚ := none
  theta : Option ℚ := none
  deriving DecidableEq, Repr

/-- argparse usage errors: all print the usage message and exit 2. -/
inductive UsageError where
  /-- a required argument (`--image` or `--outdir`) was not supplied -/
  | missingRequired
  /-- an option that takes a value came last with no value after it -/
  | missingValue
  /-- `type=float` conversion failed on an option value -/
  | badFloat
  /-- a token that is not a recognized option (no positionals exist) -/
  | unrecognized
  deriving DecidableEq, Repr

/-- The argparse scan over `argv` for the five options `load_options`
declares: `-i` `--image`, `-o` `--outdir` (string values), `-v`
`--verbosity` (`action="count"`), `-r` `--rho`, `-t` `--theta`
(`type=float`).  Values are
taken from the following token or from the `--opt=value` form. -/
def parseTokens : List String → ArgState → Except UsageError ArgState
  | [], st => .ok st
  | t :: rest, st =>
    if t = "-i" ∨ t = "--image" then
      match rest with
      | [] => .error .missingValue
      | v :: rest2 => parseTokens rest2 { st with image := some v }
    else if beginsWith t "--image=" then
      parseTokens rest { st with image := some (strDrop t 8) }
    else if t = "-o" ∨ t = "--outdir" then
      match rest with
      | [] => .error .missingValue
      | v :: rest2 => parseTokens rest2 { st with outdir := some v }
    else if beginsWith t "--outdir=" then
      parseTokens rest { st with outdir := some (strDrop t 9) }
    else if t = "-v" ∨ t = "--verbosity" then
      parseTokens rest { st with verbosity := some (st.verbosity.getD 0 + 1) }
    else if t = "-r" ∨ t = "--rho" then
      match rest with
      | [] => .error .missingValue
      | v :: rest2 =>
        match parseFloatQ v with
        | none => .error .badFloat
        | some q => parseTokens rest2 { st with rho := some q }
    else if beginsWith t "--rho=" then
      match parseFloatQ (strDrop t 6) with
      | none => .error .badFloat
      | some q => parseTokens rest { st with rho := some q }
    else if t = "-t" ∨ t = "--theta" then
      match rest with
      | [] => .error .missingValue
      | v :: rest2 =>
        match parseFloatQ v with
        | none => .error .badFloat
        | some q => parseTokens rest2 { st with theta := some q }
    else if beginsWith t "--theta=" then
      match parseFloatQ (strDrop t 8) with
      | none => .error .badFloat
      | some q => parseTokens rest { st with theta := some q }
    else .error .unrecognized

/-- `load_options`: run the scan from the empty namespace and enforce the
two `required=True` options; on any failure argparse prints usage and
exits with status 2. -/
def load_options (argv : List String) : Except UsageError Args := do
  let st ← parseTokens argv {}
  match st.image, st.outdir with
  | some img, some out =>
    .ok { image := img, outdir := out, verbosity := st.verbosity,
          rho := st.rho, theta := st.theta }
  | _, _ => .error .missingRequired

/-- Python truthiness of an `Optional[float]`: `None` and `0.0` are falsy.
This is the test `main` applies to `args.rho` / `args.theta`. -/
def floatTruthy : Option ℚ → Bool
  | none => false
  | some r => decide (r ≠ 0)

/-- Python truthiness of the `Optional[int]` verbosity count. -/
def natTruthy : Option Nat → Bool
  | none => false
  | some n => decide (n ≠ 0)

/-- The verbosity handling at the top of `main`: `if args.verbosity:` then
`> 0` enables logging and `> 1` also enables image display. -/
def debuggerFor (v : Option Nat) : Debugger :=
  if natTruthy v then
    let d : Debugger := {}
    let d := if v.getD 0 > 0 then { d with show_log := true } else d
    if v.getD 0 > 1 then { d with show_images := true } else d
  else {}

/-- The detector configuration in `main`: start from the defaults, then
`if args.rho:` / `if args.theta:` install the overrides — a truthiness
test, so a supplied `0.0` is skipped. -/
def configureDetector (args : Args) : Detector :=
  let d : Detector := {}
  let d := if floatTruthy args.rho then { d with hough_rho := args.rho.getD 0 }
           else d
  if floatTruthy args.theta then { d with hough_theta := args.theta.getD 0 }
  else d

/-- Python truthiness of `lines` in `main`: `None` and `[]` are falsy. -/
def linesTruthy : Option (List Segment) → Bool
  | none => false
  | some l => decide (l ≠ [])

/-- What one process run did: exit status, whether the usage message was
shown, the single file written (path and the feature collection whose
serialization is its content), stdout debug logs, and the uncaught OpenCV
exception if the run crashed. -/
structure RunOutcome where
  exitCode : Nat
  usageShown : Bool := false
  written : Option (String × FeatureCollection) := none
  logs : List LogMsg := []
  crash : Option CvError := none
  deriving DecidableEq, Repr

/-- The body of `main` after `parse_args` has succeeded: configure the
debugger and detector, detect, and only `if lines:` export and save. -/
def runPipeline (env : Env) (args : Args) : RunOutcome :=
  let dbg := debuggerFor args.verbosity
  let detect := configureDetector args
  match detect.detect_roads env dbg args.image with
  | .error e => { exitCode := 1, logs := [], crash := some e }
  | .ok (lines, logs1) =>
    if linesTruthy lines then
      let segs := lines.getD []
      let gis : GIS := {}
      let (gis, logs2) := gis.add_lines dbg segs
      let (feature_col, logs3) := gis.to_json dbg
      { exitCode := 0,
        written := some (path_join args.outdir "geo.json", feature_col),
        logs := logs1 ++ logs2 ++ logs3 }
    else
      { exitCode := 0, logs := logs1 }

/-- `main(argv)`: parse options (usage errors exit 2 before any pipeline
work), then run the pipeline. -/
def main (env : Env) (argv : List String) : RunOutcome :=
  match load_options argv with
  | .error _ => { exitCode := 2, usageShown := true }
  | .ok args => runPipeline env args

/-- Whether `argv` contains the option `short`/`long` in any form the
scanner recognizes (own token or `--long=value`).  Used to state "the
command line does not supply this option". -/
def mentionsOpt (argv : List String) (short long : String) : Bool :=
  argv.any fun t => t = short || t = long || beginsWith t (long ++ "=")

/-! Concrete instances used to evaluate the model. -/

/-- An environment for a uniform blank image: the image loads, but the
Hough transform finds no lines on any input. -/
def env_blank : Env where
  imread := fun _ => some [[(7, 7, 7)]]
  grayscale := fun _ => [[7]]
  canny := fun _ _ _ => [[false]]
  hough := fun _ _ _ _ => none

/-- A command line supplying only the two required options. -/
def argv_blank : List String := ["--image", "blank.png", "--outdir", "/tmp"]

/-- An environment whose Hough transform yields the two demo segments
`(0,0)-(10,0)` and `(5,5)-(5,15)` in one result row. -/
def env_two : Env where
  imread := fun _ => some [[(0, 0, 0)]]
  grayscale := fun _ => [[0]]
  canny := fun _ _ _ => [[true]]
  hough := fun _ _ _ _ => some [[(0, 0, 10, 0), (5, 5, 5, 15)]]

/-- An environment where every image path fails to load
(`cv2.imread` yields `None`). -/
def env_noimg : Env where
  imread := fun _ => none
  grayscale := fun _ => [[0]]
  canny := fun _ _ _ => [[false]]
  hough := fun _ _ _ _ => none

/-- The two demo segments of the round-trip property. -/
def demo_segments : List Segment := [((0, 0), (10, 0)), ((5, 5), (5, 15))]

/-! Theorems. -/

/-- C3: exporting any list of integer segments through one `add_lines`
call followed by `to_json` yields a `FeatureCollection` with exactly one
`GeometryCollection` holding one two-point `LineString` per segment, the
endpoints cast to (exact) floats; on the demo list
`[((0,0),(10,0)), ((5,5),(5,15))]` the two line strings carry exactly
`[[0,0],[10,0]]` and `[[5,5],[5,15]]`, so the structure parses back to the
same coordinate pairs. -/
theorem c3_export_roundtrip :
    (∀ (dbg : Debugger) (segs : List Segment),
      ((GIS.add_lines {} dbg segs).1.to_json dbg).1
        = ⟨[⟨segs.map segLineString⟩]⟩) ∧
    ((GIS.add_lines {} {} demo_segments).1.to_json {}).1
      = ⟨[⟨[⟨[((0 : ℚ), (0 : ℚ)), (10, 0)]⟩, ⟨[(5, 5), (5, 15)]⟩]⟩]⟩ := by
  exact ⟨fun dbg segs => rfl, rfl⟩

/-- C9: a `--rho` or `--theta` value of `0` parses to `0.0`, but `main`
installs overrides behind a truthiness test (`if args.rho:`), so a zero
override is silently dropped and the detector keeps its defaults
(`rho = 1.0`, `theta = math.pi / 2`). -/
theorem c9_zero_override_ignored :
    (∀ args : Args, args.rho = some 0 →
      (configureDetector args).hough_rho = 1) ∧
    (∀ args : Args, args.theta = some 0 →
      (configureDetector args).hough_theta = mathPi / 2) ∧
    load_options
        ["--image", "a", "--outdir", "b", "--rho", "0", "--theta", "0.0"]
      = .ok { image := "a", outdir := "b", rho := some 0,
              theta := some 0 } := by
  refine ⟨?_, ?_, ?_⟩
  · intro args h
    have hf : floatTruthy args.rho = false := by rw [h]; rfl
    simp only [configureDetector, hf, Bool.false_eq_true, if_false]
    split <;> rfl
  · intro args h
    have hf : floatTruthy args.theta = false := by rw [h]; rfl
    simp only [configureDetector, hf, Bool.false_eq_true, if_false]
    split <;> rfl
  · have key : load_options
        ["--image", "a", "--outdir", "b", "--rho", "0", "--theta", "0.0"]
        = .ok { image := "a", outdir := "b", verbosity := none,
                rho := some (1 * ((0 : Nat) : ℚ)),
                theta := some (1 * (((0 : Nat) : ℚ)
                  + ((0 : Nat) : ℚ) / 10 ^ (1 : Nat))) } := rfl
    rw [key]
    norm_num

/-- C9 witness: concrete evaluation at an `Args` record carrying
`rho = theta = 0`. -/
theorem c9_witness :
    (configureDetector
        { image := "a", outdir := "b", rho := some 0,
          theta := some 0 }).hough_rho = 1 ∧
    (configureDetector
        { image := "a", outdir := "b", rho := some 0,
          theta := some 0 }).hough_theta = mathPi / 2 :=
  ⟨c9_zero_override_ignored.1 _ rfl, c9_zero_override_ignored.2.1 _ rfl⟩

/-- C10: `add_lines` on the empty segment list appends one empty
`GeometryCollection`, and `to_json` then returns the well-formed
`FeatureCollection` containing exactly that empty collection (the loop
over an empty sequence just runs zero times; nothing raises). -/
theorem c10_empty_add_lines (dbg : Debugger) :
    (GIS.add_lines {} dbg []).1 = ⟨[⟨[]⟩]⟩ ∧
    ((GIS.add_lines {} dbg []).1.to_json dbg).1 = ⟨[⟨[]⟩]⟩ :=
  ⟨rfl, rfl⟩

/-- C7: `save_json` writes to exactly `os.path.join(outdir, "geo.json")`,
the stored content is exactly the given text whatever the file held before
(mode `"w"` truncates: overwrite, never append), every other path is
untouched, and for an ordinary directory name the target is
`outdir ++ "/geo.json"`. -/
theorem c7_save_json_overwrites {α : Type} (fs : FileSys α) (json : α)
    (outdir : String) :
    save_json fs json outdir (path_join outdir "geo.json") = some json ∧
    (∀ p, p ≠ path_join outdir "geo.json" →
      save_json fs json outdir p = fs p) ∧
    (outdir ≠ "" → endsWithStr outdir "/" = false →
      path_join outdir "geo.json" = outdir ++ "/geo.json") := by
  refine ⟨by simp [save_json], fun p hp => by simp [save_json, hp], ?_⟩
  intro h1 h2
  have hb : beginsWith "geo.json" "/" = false := rfl
  have ha : ("/" : String) ++ "geo.json" = "/geo.json" := rfl
  simp only [path_join, hb, Bool.false_eq_true, if_false, h1, h2,
    false_or, or_self, ite_false]
  rw [String.append_assoc]
  rfl

/-- C7 witness: overwriting a file that already holds `"old"` leaves
exactly `"new"`, the sibling path is untouched, and the target path is
`/out/geo.json`. -/
theorem c7_witness :
    save_json (fun _ => some "old") "new" "/out" "/out/geo.json"
      = some "new" ∧
    save_json (fun _ => some "old") "new" "/out" "/other" = some "old" := by
  obtain ⟨h1, h2, h3⟩ :=
    c7_save_json_overwrites (fun _ => some "old") "new" "/out"
  have e : path_join "/out" "geo.json" = "/out/geo.json" := by decide
  exact ⟨e ▸ h1, h2 "/other" (by decide)⟩

/-- C2: whenever the image loads and the probabilistic line detection
yields a result array (one row holding all detected raw lines, the layout
`filtered[0]` addresses), `detect_roads` returns exactly those lines as
endpoint pairs — all of them, in the transform's order, omitting none. -/
theorem c2_detect_returns_all (d : Detector) (env : Env) (dbg : Debugger)
    (path : String) (img : Image) (row : List RawLine)
    (hload : env.imread path = some img)
    (hhough : env.hough
        (env.canny (env.grayscale img) d.canny_threshold1 d.canny_threshold2)
        d.hough_rho d.hough_theta d.hough_threshold = some [row]) :
    d.detect_roads env dbg path = .ok (some (row.map rawToSegment), []) := by
  simp only [Detector.detect_roads, hload, cvtColor, bind, Except.bind,
    hhough, pure, Except.pure]

/-- C2 witness: in `env_two` the transform yields the two demo raw lines
and `detect_roads` returns exactly the two demo segments. -/
theorem c2_witness :
    ({} : Detector).detect_roads env_two {} "roads.png"
      = .ok (some demo_segments, []) := by
  simpa using
    c2_detect_returns_all {} env_two {} "roads.png" [[(0, 0, 0)]]
      [(0, 0, 10, 0), (5, 5, 5, 15)] rfl rfl

/-- C4: for an image path that cannot be opened or decoded, `imread`
yields `None`; `detect_roads` performs no explicit check and the failure
surfaces as the `cv2.error` raised inside `cvtColor` — the first call of
the detection step — so `detect_roads` never returns segments, and `main`
propagates the exception: nonzero exit, nothing written. -/
theorem c4_unreadable_image_fails (env : Env) :
    (∀ (d : Detector) (dbg : Debugger) (path : String),
      env.imread path = none →
      d.detect_roads env dbg path = .error .cvtColorNullSrc) ∧
    (∀ args : Args, env.imread args.image = none →
      runPipeline env args
        = { exitCode := 1, crash := some .cvtColorNullSrc }) := by
  have hdet : ∀ (d : Detector) (dbg : Debugger) (path : String),
      env.imread path = none →
      d.detect_roads env dbg path = .error .cvtColorNullSrc := by
    intro d dbg path h
    simp only [Detector.detect_roads, h, cvtColor, bind, Except.bind]
  refine ⟨hdet, fun args h => ?_⟩
  simp only [runPipeline, hdet _ _ _ h]

/-- C4 witness: in `env_noimg` every load fails and the run crashes with
the `cvtColor` error, writing nothing. -/
theorem c4_witness :
    ({} : Detector).detect_roads env_noimg {} "missing.png"
      = .error .cvtColorNullSrc ∧
    runPipeline env_noimg { image := "missing.png", outdir := "/tmp" }
      = { exitCode := 1, crash := some .cvtColorNullSrc } :=
  ⟨(c4_unreadable_image_fails env_noimg).1 {} {} "missing.png" rfl,
   (c4_unreadable_image_fails env_noimg).2
     { image := "missing.png", outdir := "/tmp" } rfl⟩

/-- C1 counterexample: on a uniform blank image (`env_blank`: the Hough
transform finds no lines) the run skips the output step entirely — no
`geo.json` is written (`written = none`), refuting the claim that the
pipeline still writes a (possibly empty-geometry) output file.  The run
does exit cleanly, without crashing. -/
theorem c1_counterexample :
    (main env_blank argv_blank).written = none ∧
    (main env_blank argv_blank).exitCode = 0 ∧
    (main env_blank argv_blank).crash = none :=
  ⟨rfl, rfl, rfl⟩

/-- C1 amended: when the image loads but the detector finds no lines,
`detect_roads` returns `None` (logging "No lines found") and `main`'s
`if lines:` guard skips the export and the write — the process exits
cleanly with no output file, rather than crashing or writing one. -/
theorem c1_amended (env : Env) (args : Args) (img : Image)
    (hload : env.imread args.image = some img)
    (hhough : ∀ em r th thr, env.hough em r th thr = none) :
    (configureDetector args).detect_roads env (debuggerFor args.verbosity)
        args.image
      = .ok (none, (debuggerFor args.verbosity).logIf .noLines) ∧
    runPipeline env args
      = { exitCode := 0,
          logs := (debuggerFor args.verbosity).logIf .noLines } := by
  have hdet : (configureDetector args).detect_roads env
      (debuggerFor args.verbosity) args.image
      = .ok (none, (debuggerFor args.verbosity).logIf .noLines) := by
    simp only [Detector.detect_roads, hload, cvtColor, bind, Except.bind,
      hhough, pure, Except.pure]
  refine ⟨hdet, ?_⟩
  simp only [runPipeline, hdet, linesTruthy, Bool.false_eq_true, if_false]

/-- C1 witness for the amended statement: the blank-image environment with
the minimal command line. -/
theorem c1_witness :
    (configureDetector { image := "blank.png", outdir := "/tmp" }).detect_roads
        env_blank (debuggerFor none) "blank.png" = .ok (none, []) ∧
    runPipeline env_blank { image := "blank.png", outdir := "/tmp" }
      = { exitCode := 0 } := by
  simpa using
    c1_amended env_blank { image := "blank.png", outdir := "/tmp" }
      [[(7, 7, 7)]] rfl (fun _ _ _ _ => rfl)

/-- C6: the pipeline is a deterministic function of the image/CV oracles
and the command line — no randomness anywhere — so two runs over equal
oracles and identical arguments produce identical outcomes (in particular
identical written files). -/
theorem c6_deterministic (env env' : Env) (argv : List String)
    (h1 : env.imread = env'.imread) (h2 : env.grayscale = env'.grayscale)
    (h3 : env.canny = env'.canny) (h4 : env.hough = env'.hough) :
    main env argv = main env' argv := by
  obtain ⟨i, g, c, ho⟩ := env
  obtain ⟨i', g', c', ho'⟩ := env'
  cases h1; cases h2; cases h3; cases h4
  rfl

/-- C6 witness: two runs over the same concrete environment and command
line coincide. -/
theorem c6_witness :
    main env_two ["--image", "roads.png", "--outdir", "/out"]
      = main env_two ["--image", "roads.png", "--outdir", "/out"] :=
  c6_deterministic env_two env_two ["--image", "roads.png", "--outdir", "/out"]
    rfl rfl rfl rfl

/-- The debug sink feeds nothing back into the detection result: the first
component of `detect_roads` (the segments) does not depend on the
debugger; only the collected log output does. -/
theorem detect_roads_dbg_fst (d : Detector) (env : Env) (dbg dbg' : Debugger)
    (p : String) :
    (d.detect_roads env dbg p).map Prod.fst
      = (d.detect_roads env dbg' p).map Prod.fst := by
  unfold Detector.detect_roads
  cases h : env.imread p with
  | none => rfl
  | some img =>
    simp only [cvtColor, bind, Except.bind]
    cases env.hough (env.canny (env.grayscale img) d.canny_threshold1
        d.canny_threshold2) d.hough_rho d.hough_theta d.hough_threshold with
    | none => rfl
    | some filtered => cases filtered <;> rfl

set_option maxHeartbeats 2000000 in
/-- If `argv` never mentions `-i`-slash-`--image`, the scanner can never
set the `image` field: a successful parse leaves it `none`. -/
theorem parseTokens_keeps_image_none :
    ∀ (n : Nat) (argv : List String) (st : ArgState), argv.length ≤ n →
      mentionsOpt argv "-i" "--image" = false → st.image = none →
      ∀ st', parseTokens argv st = .ok st' → st'.image = none := by
  intro n
  induction n with
  | zero =>
    intro argv st hlen hm hst st' hp
    have : argv = [] := List.eq_nil_of_length_eq_zero (Nat.le_zero.mp hlen)
    subst this
    simp only [parseTokens, Except.ok.injEq] at hp
    rw [← hp]; exact hst
  | succ n ih =>
    intro argv st hlen hm hst st' hp
    match argv with
    | [] =>
      simp only [parseTokens, Except.ok.injEq] at hp
      rw [← hp]; exact hst
    | t :: rest =>
      have e1 : ("--image" : String) ++ "=" = "--image=" := rfl
      have hlen' : rest.length ≤ n := by
        simp only [List.length_cons] at hlen; omega
      unfold parseTokens at hp
      repeat' split at hp
      all_goals first
        | exact Except.noConfusion hp
        | (refine ih _ _ ?_ ?_ ?_ st' hp <;>
            first
              | exact hst
              | exact hlen'
              | (simp only [List.length_cons] at hlen'; omega)
              | (simp only [mentionsOpt, List.any_cons, Bool.or_eq_false_iff,
                   decide_eq_false_iff_not, e1] at hm ⊢; tauto))
        | (simp only [mentionsOpt, List.any_cons, Bool.or_eq_false_iff,
             decide_eq_false_iff_not, e1] at hm; simp_all)

set_option maxHeartbeats 2000000 in
/-- If `argv` never mentions `-o`-slash-`--outdir`, a successful parse
leaves the `outdir` field `none`. -/
theorem parseTokens_keeps_outdir_none :
    ∀ (n : Nat) (argv : List String) (st : ArgState), argv.length ≤ n →
      mentionsOpt argv "-o" "--outdir" = false → st.outdir = none →
      ∀ st', parseTokens argv st = .ok st' → st'.outdir = none := by
  intro n
  induction n with
  | zero =>
    intro argv st hlen hm hst st' hp
    have : argv = [] := List.eq_nil_of_length_eq_zero (Nat.le_zero.mp hlen)
    subst this
    simp only [parseTokens, Except.ok.injEq] at hp
    rw [← hp]; exact hst
  | succ n ih =>
    intro argv st hlen hm hst st' hp
    match argv with
    | [] =>
      simp only [parseTokens, Except.ok.injEq] at hp
      rw [← hp]; exact hst
    | t :: rest =>
      have e1 : ("--outdir" : String) ++ "=" = "--outdir=" := rfl
      have hlen' : rest.length ≤ n := by
        simp only [List.length_cons] at hlen; omega
      unfold parseTokens at hp
      repeat' split at hp
      all_goals first
        | exact Except.noConfusion hp
        | (refine ih _ _ ?_ ?_ ?_ st' hp <;>
            first
              | exact hst
              | exact hlen'
              | (simp only [List.length_cons] at hlen'; omega)
              | (simp only [mentionsOpt, List.any_cons, Bool.or_eq_false_iff,
                   decide_eq_false_iff_not, e1] at hm ⊢; tauto))
        | (simp only [mentionsOpt, List.any_cons, Bool.or_eq_false_iff,
             decide_eq_false_iff_not, e1] at hm; simp_all)

/-- C8: a command line that never supplies `--image` (or never supplies
`--outdir`) is a usage error: argparse prints the usage message, the
process exits with status 2, and the pipeline never runs (nothing written,
nothing logged, no crash). -/
theorem c8_missing_required (env : Env) (argv : List String)
    (h : mentionsOpt argv "-i" "--image" = false ∨
         mentionsOpt argv "-o" "--outdir" = false) :
    main env argv = { exitCode := 2, usageShown := true } := by
  unfold main
  cases hlo : load_options argv with
  | error e => rfl
  | ok args =>
    exfalso
    unfold load_options at hlo
    cases hp : parseTokens argv {} with
    | error e =>
      rw [hp] at hlo
      simp only [bind, Except.bind] at hlo
      exact Except.noConfusion hlo
    | ok st =>
      rw [hp] at hlo
      simp only [bind, Except.bind] at hlo
      cases h with
      | inl hi =>
        have hnone : st.image = none :=
          parseTokens_keeps_image_none argv.length argv {} le_rfl hi rfl st hp
        rw [hnone] at hlo
        cases st.outdir <;> simp at hlo
      | inr ho =>
        have hnone : st.outdir = none :=
          parseTokens_keeps_outdir_none argv.length argv {} le_rfl ho rfl st hp
        rw [hnone] at hlo
        cases st.image <;> simp at hlo

/-- C8 witness: a command line with only `--outdir` exits 2 with the usage
message. -/
theorem c8_witness :
    main env_blank ["--outdir", "b"] = { exitCode := 2, usageShown := true } :=
  c8_missing_required env_blank ["--outdir", "b"] (Or.inl (by decide))

/-- C5: two parsed command lines agreeing on everything except the
verbosity count drive the pipeline to the same written file (and the same
exit status and crash behaviour): the debug sink is a pure side channel
into the console and window only. -/
theorem c5_verbosity_no_effect (env : Env) (a1 a2 : Args)
    (himg : a1.image = a2.image) (hout : a1.outdir = a2.outdir)
    (hrho : a1.rho = a2.rho) (hth : a1.theta = a2.theta) :
    (runPipeline env a1).written = (runPipeline env a2).written ∧
    (runPipeline env a1).exitCode = (runPipeline env a2).exitCode ∧
    (runPipeline env a1).crash = (runPipeline env a2).crash := by
  have hd : configureDetector a1 = configureDetector a2 := by
    simp only [configureDetector, hrho, hth]
  have hfst := detect_roads_dbg_fst (configureDetector a2) env
      (debuggerFor a1.verbosity) (debuggerFor a2.verbosity) a2.image
  simp only [runPipeline, hd, himg, hout]
  cases e1 : (configureDetector a2).detect_roads env
      (debuggerFor a1.verbosity) a2.image with
  | error c1 =>
    cases e2 : (configureDetector a2).detect_roads env
        (debuggerFor a2.verbosity) a2.image with
    | error c2 =>
      rw [e1, e2] at hfst
      simp only [Except.map, Except.error.injEq] at hfst
      subst hfst
      exact ⟨rfl, rfl, rfl⟩
    | ok v2 =>
      rw [e1, e2] at hfst
      exact absurd hfst (by simp [Except.map])
  | ok v1 =>
    cases e2 : (configureDetector a2).detect_roads env
        (debuggerFor a2.verbosity) a2.image with
    | error c2 =>
      rw [e1, e2] at hfst
      exact absurd hfst (by simp [Except.map])
    | ok v2 =>
      rw [e1, e2] at hfst
      obtain ⟨l1, lg1⟩ := v1
      obtain ⟨l2, lg2⟩ := v2
      simp only [Except.map, Except.ok.injEq] at hfst
      subst hfst
      by_cases ht : linesTruthy l1 = true
      · simp [ht, GIS.add_lines, GIS.to_json]
      · simp [ht]

/-- C5 witness: same image, output directory and overrides, verbosity `0`
versus `2`: identical written output, exit status and crash state. -/
theorem c5_witness :
    (runPipeline env_two { image := "roads.png", outdir := "/out" }).written
      = (runPipeline env_two
          { image := "roads.png", outdir := "/out",
            verbosity := some 2 }).written ∧
    (runPipeline env_two { image := "roads.png", outdir := "/out" }).exitCode
      = (runPipeline env_two
          { image := "roads.png", outdir := "/out",
            verbosity := some 2 }).exitCode ∧
    (runPipeline env_two { image := "roads.png", outdir := "/out" }).crash
      = (runPipeline env_two
          { image := "roads.png", outdir := "/out",
            verbosity := some 2 }).crash :=
  c5_verbosity_no_effect env_two
    { image := "roads.png", outdir := "/out" }
    { image := "roads.png", outdir := "/out", verbosity := some 2 }
    rfl rfl rfl rfl

end GeoVision
